import Mathlib

/-!
Verification of the `uw_oidc` token-verification middleware
(`uw_oidc/id_token.py` and `uw_oidc/middleware.py`).

The repository's two source modules are embedded shallowly.  External
collaborators (the PyJWT library, the JWKS key cache, Django's `settings`
and `auth` framework) appear as explicit parameters gathered in a `World`
structure, and each embedded function additionally returns the list of
observable external calls it makes, so that ordering claims ("failure
occurs before any key lookup", "refresh is invoked exactly once") can be
stated about the trace.
-/

deriving instance DecidableEq for Except

namespace UwOidc

/-- JSON-style claim values appearing in a decoded token payload. -/
inductive JVal where
  | jint (n : Int)
  | jstr (s : String)
deriving DecidableEq

/-- Decoded token payload: an association list of claim names to values. -/
abbrev Payload := List (String × JVal)

/-- Python `dict.get(key)` over a payload. -/
def payloadGet : Payload → String → Option JVal
  | [], _ => none
  | (k, v) :: rest, key => if k = key then some v else payloadGet rest key

/-- Modelled from the spec: the exception taxonomy of section 7
(`uw_oidc/exceptions.py` is not among the given sources).  Per the spec all
three kinds are caught together at the adapter boundary, i.e.
`InvalidTokenHeader` and `NoMatchingPublicKey` are `InvalidTokenError`
subclasses; the middleware's `except InvalidTokenError` therefore catches
every `OidcError`. -/
inductive OidcError where
  | invalidTokenHeader (msg : String)
  | noMatchingPublicKey (kid : String)
  | invalidTokenError (msg : String)
deriving DecidableEq

/-- Python-level exceptions: the repository's OIDC exceptions plus builtin
exceptions (`ValueError`, `TypeError`) that no handler in the repository
catches. -/
inductive PyError where
  | oidc (e : OidcError)
  | valueError (msg : String)
  | typeError (msg : String)
deriving DecidableEq

/-- Python `str(ex)` of an OIDC exception, used for the 401 reason. -/
def oidcStr : OidcError → String
  | .invalidTokenHeader m => m
  | .noMatchingPublicKey kid => kid
  | .invalidTokenError m => m

/-- Value of a nonempty all-digit character list, accumulator style. -/
def digitsValAux (acc : Nat) : List Char → Option Nat
  | [] => some acc
  | c :: rest =>
    if c.isDigit then digitsValAux (acc * 10 + (c.toNat - 48)) rest
    else none

/-- Value of a character list that must be a nonempty run of digits. -/
def digitsVal : List Char → Option Nat
  | [] => none
  | l => digitsValAux 0 l

/-- Python `int(s)` on a string: an optional sign followed by digits;
anything else raises `ValueError`. -/
def pyStrToInt (l : List Char) : Option Int :=
  match l with
  | '-' :: rest => (digitsVal rest).map (fun n => -(n : Int))
  | '+' :: rest => (digitsVal rest).map (fun n => (n : Int))
  | rest => (digitsVal rest).map (fun n => (n : Int))

/-- Python `int(x)` on a JSON value: ints pass through, numeric strings
convert, non-numeric strings raise `ValueError`. -/
def pyInt : JVal → Except PyError Int
  | .jint n => .ok n
  | .jstr s =>
    match pyStrToInt s.data with
    | some n => .ok n
    | none => .error (.valueError s)

/-- Unverified JOSE header of a token: its `kid` and `alg` fields.  A `kid`
of `none` models a header dict without the key. -/
structure TokenHeader where
  kid : Option String
  alg : String
deriving DecidableEq

/-- Abstraction of a JWT string as the PyJWT library sees it: the parsed
header (`.error msg` models a structurally malformed token, on which
`get_unverified_header` raises `PyJWTError(msg)`), the payload, the key
identifier its signature actually verifies under, and whether its standard
claims (`exp`, `iat`, `iss`, `aud` under the configured issuer, audience and
leeway of `JWT_OPTIONS`) check out. -/
structure Token where
  header : Except String TokenHeader
  payload : Payload
  sigKey : Nat
  claimsValid : Bool
deriving DecidableEq

/-- Django settings consumed by `valid_auth_time`:
`int(getattr(settings, 'UW_TOKEN_MAX_AGE', 0))`. -/
structure Settings where
  uwTokenMaxAge : Int
deriving DecidableEq

/-- External collaborators of the two source modules: `parse` is how PyJWT
reads a token string, `getPubkey` is `UW_JWKS().get_pubkey(kid,
force_update)` (Modelled from the spec, section 4.1: `uw_oidc/jwks.py` is
not among the given sources), `authenticate` is Django's
`auth.authenticate(request, remote_user=username)` returning a user id or
`None`. -/
structure World where
  parse : String → Token
  getPubkey : String → Bool → Option Nat
  settings : Settings
  now : Int
  authenticate : String → Option Nat

/-- Observable external calls made during one verification attempt. -/
inductive ExtCall where
  | headerCall (token : String)
  | getPubkey (kid : String) (forceUpdate : Bool)
  | jwtDecodeCall (key : Nat)
  | authenticateCall (username : String)
  | loginCall (user : Nat)
deriving DecidableEq

/-- Key-cache lookups contained in a trace. -/
def keyLookups (t : List ExtCall) : List ExtCall :=
  t.filter fun c =>
    match c with
    | .getPubkey _ _ => true
    | _ => false

/-- Modelled contract of the external PyJWT `decode` routine (`jwt.decode`):
it rejects a token whose header `alg` is outside the `algorithms` argument
(raising `InvalidAlgorithmError`, a `PyJWTError`), then verifies the
signature against the given key, then validates the standard claims; only
then does it return the payload. -/
def jwt_decode (tok : Token) (key : Nat) (algorithms : List String) :
    Except String Payload :=
  match tok.header with
  | .error ex => .error ex
  | .ok headers =>
    if algorithms.contains headers.alg = false then
      .error "The specified alg value is not allowed"
    else if tok.sigKey ≠ key then
      .error "Signature verification failed"
    else if tok.claimsValid = false then
      .error "Token claim verification failed"
    else
      .ok tok.payload

/-- Constant `UWIdPToken.SIGNING_ALGORITHMS` (id_token.py line 26). -/
def SIGNING_ALGORITHMS : List String := ["RS256", "RS384", "RS512", "ES256"]

/-- Embedding of `UWIdPToken.decode_token` (id_token.py lines 82-91): calls `jwt.decode`
with the constant `SIGNING_ALGORITHMS` allowlist; issuer, audience and
leeway come from settings and are absorbed in `Token.claimsValid`. -/
def decode_token (w : World) (token : String) (pubkey : Nat) :
    Except String Payload :=
  jwt_decode (w.parse token) pubkey SIGNING_ALGORITHMS

/-- The `try: return self.decode_token(pubkey) except PyJWTError as ex:
raise InvalidTokenError(ex)` block of `get_token_payload` (id_token.py
lines 69-76). -/
def decode_or_invalid (w : World) (token : String) (pubkey : Nat) :
    Except PyError Payload :=
  match decode_token w token pubkey with
  | .ok payload => .ok payload
  | .error ex => .error (.oidc (.invalidTokenError ex))

/-- Embedding of `UWIdPToken.get_key` (id_token.py lines 78-80). -/
def get_key (w : World) (kid : String) (force_update : Bool) : Option Nat :=
  w.getPubkey kid force_update

/-- Embedding of `UWIdPToken.get_token_payload` (id_token.py lines 54-76).  The source
recurses once with `refresh_keys=True` on a miss; the single bounded
recursive call is unrolled here so the definition is structural. -/
def get_token_payload (w : World) (token kid : String) :
    Bool → Except PyError Payload × List ExtCall
  | true =>
    match get_key w kid true with
    | some pubkey =>
      (decode_or_invalid w token pubkey,
       [.getPubkey kid true, .jwtDecodeCall pubkey])
    | none =>
      (.error (.oidc (.noMatchingPublicKey kid)), [.getPubkey kid true])
  | false =>
    match get_key w kid false with
    | some pubkey =>
      (decode_or_invalid w token pubkey,
       [.getPubkey kid false, .jwtDecodeCall pubkey])
    | none =>
      match get_key w kid true with
      | some pubkey =>
        (decode_or_invalid w token pubkey,
         [.getPubkey kid false, .getPubkey kid true, .jwtDecodeCall pubkey])
      | none =>
        (.error (.oidc (.noMatchingPublicKey kid)),
         [.getPubkey kid false, .getPubkey kid true])

/-- PyJWT `get_unverified_header(token)`. -/
def get_unverified_header (w : World) (token : String) :
    Except String TokenHeader :=
  (w.parse token).header

/-- Embedding of `UWIdPToken.extract_keyid` (id_token.py lines 39-52): wraps a
`PyJWTError` from header parsing in `InvalidTokenHeader`, and raises
`InvalidTokenHeader()` when `kid` is missing or empty. -/
def extract_keyid (w : World) (token : String) :
    Except PyError String × List ExtCall :=
  match get_unverified_header w token with
  | .error ex => (.error (.oidc (.invalidTokenHeader ex)), [.headerCall token])
  | .ok headers =>
    match headers.kid with
    | none => (.error (.oidc (.invalidTokenHeader "")), [.headerCall token])
    | some kid =>
      if kid.length = 0 then
        (.error (.oidc (.invalidTokenHeader "")), [.headerCall token])
      else
        (.ok kid, [.headerCall token])

/-- Embedding of `UWIdPToken.valid_auth_time` (id_token.py lines 93-106).  Note the
source catches only `KeyError`: a present but non-integer `auth_time` makes
`int(...)` raise `ValueError`, which escapes. -/
def valid_auth_time (s : Settings) (now : Int) (payload : Payload) :
    Except PyError Bool :=
  let timeout := s.uwTokenMaxAge
  if timeout = 0 then
    .ok true
  else
    let age_limit := now - timeout
    match payloadGet payload "auth_time" with
    | none => .ok false
    | some v =>
      match pyInt v with
      | .error e => .error e
      | .ok n => .ok (decide (age_limit ≤ n))

/-- Embedding of `UWIdPToken.username_from_token` (id_token.py lines 28-37): extract the
kid, resolve the key and decode, check freshness, then return
`payload.get('sub')`; a failed freshness check raises
`InvalidTokenError("AuthTimedOut")`. -/
def username_from_token (w : World) (token : String) :
    Except PyError (Option JVal) × List ExtCall :=
  match extract_keyid w token with
  | (.error e, t) => (.error e, t)
  | (.ok kid, t) =>
    match get_token_payload w token kid false with
    | (.error e, t2) => (.error e, t ++ t2)
    | (.ok payload, t2) =>
      match valid_auth_time w.settings w.now payload with
      | .error e => (.error e, t ++ t2)
      | .ok true => (.ok (payloadGet payload "sub"), t ++ t2)
      | .ok false =>
        (.error (.oidc (.invalidTokenError "AuthTimedOut")), t ++ t2)

/-- Python `s.replace(old, '', 1)` on character lists: removes the first
occurrence of `old`, scanning left to right. -/
def py_replace_once_list (old : List Char) : List Char → List Char
  | [] => []
  | c :: rest =>
    if old.isPrefixOf (c :: rest) then (c :: rest).drop old.length
    else c :: py_replace_once_list old rest

/-- Python `s.replace(old, '', 1)` on strings. -/
def py_replace_once (s old : String) : String :=
  String.mk (py_replace_once_list old.data s.data)

/-- Embedding of `IDTokenAuthenticationMiddleware.clean_username` (middleware.py lines
58-67): raises `InvalidTokenError('Missing username')` on `None` or an
empty value, then tries `(username, domain) = username.split('@', 1)`,
ignoring the `ValueError` raised when there is no `'@'`.  `len` of a
non-string raises `TypeError`. -/
def clean_username (username : Option JVal) : Except PyError String :=
  match username with
  | none => .error (.oidc (.invalidTokenError "Missing username"))
  | some (.jint _) => .error (.typeError "object of type int has no len()")
  | some (.jstr u) =>
    if u.length = 0 then
      .error (.oidc (.invalidTokenError "Missing username"))
    else
      match u.data.dropWhile (fun c => c != '@') with
      | [] => .ok u
      | _ :: _ => .ok (String.mk (u.data.takeWhile (fun c => c != '@')))

/-- Constant `IDTokenAuthenticationMiddleware.TOKEN_SESSION_KEY` (middleware.py
line 18). -/
def TOKEN_SESSION_KEY : String := "uw_oidc_idtoken"

/-- Django session assignment `session[k] = v` over an association list. -/
def sessionSet (s : List (String × String)) (k v : String) :
    List (String × String) :=
  (k, v) :: s.filter (fun p => p.1 != k)

/-- An inbound HTTP request as the middleware sees it:
`request.META.get('HTTP_AUTHORIZATION')`, `request.user` (a user id, or
`none` for Django's anonymous user) and `request.session`. -/
structure Request where
  httpAuthorization : Option String
  user : Option Nat
  session : List (String × String)
deriving DecidableEq

/-- Django's `request.user.is_authenticated`. -/
def isAuthenticated (req : Request) : Bool :=
  req.user.isSome

/-- What `process_view` does to the request: return `None` and let the
request proceed, return a 401 `HttpResponse`, or let a non-`InvalidTokenError`
exception escape unhandled. -/
inductive PvOutcome where
  | proceed
  | response (status : Nat) (reason : String)
  | unhandled (e : PyError)
deriving DecidableEq

/-- Result of `process_view`: the outcome together with the final
`request.user`, the final session contents, and the external calls made. -/
structure PvResult where
  outcome : PvOutcome
  user : Option Nat
  session : List (String × String)
  trace : List ExtCall
deriving DecidableEq

/-- Embedding of `IDTokenAuthenticationMiddleware.process_view` (middleware.py lines
31-56).  Only `InvalidTokenError` (and its subclasses, i.e. every
`OidcError`) is caught and turned into a 401 whose reason is `str(ex)`;
any other exception escapes.  On successful authentication, `auth.login`
persists the user and the raw token is stored under `TOKEN_SESSION_KEY`. -/
def process_view (w : World) (req : Request) : PvResult :=
  match req.httpAuthorization with
  | none => { outcome := .proceed, user := req.user,
              session := req.session, trace := [] }
  | some authz =>
    if isAuthenticated req then
      { outcome := .proceed, user := req.user,
        session := req.session, trace := [] }
    else
      let token := py_replace_once authz "Bearer "
      match username_from_token w token with
      | (.error (.oidc e), t) =>
        { outcome := .response 401 (oidcStr e), user := req.user,
          session := req.session, trace := t }
      | (.error e, t) =>
        { outcome := .unhandled e, user := req.user,
          session := req.session, trace := t }
      | (.ok sub, t) =>
        match clean_username sub with
        | .error (.oidc e) =>
          { outcome := .response 401 (oidcStr e), user := req.user,
            session := req.session, trace := t }
        | .error e =>
          { outcome := .unhandled e, user := req.user,
            session := req.session, trace := t }
        | .ok username =>
          match w.authenticate username with
          | none =>
            { outcome := .proceed, user := req.user, session := req.session,
              trace := t ++ [.authenticateCall username] }
          | some user =>
            { outcome := .proceed, user := some user,
              session := sessionSet
                (sessionSet req.session "_auth_user_id" (toString user))
                TOKEN_SESSION_KEY token,
              trace := t ++ [.authenticateCall username, .loginCall user] }

/-! ## Helper lemmas -/

/-- The header-extraction step makes exactly the one unverified-header call. -/
theorem extract_keyid_snd (w : World) (token : String) :
    (extract_keyid w token).2 = [.headerCall token] := by
  unfold extract_keyid
  split
  · rfl
  · split
    · rfl
    · split <;> rfl

/-- Unwrapping the `try/except PyJWTError` block succeeds exactly when the
underlying decode succeeds. -/
theorem decode_or_invalid_ok (w : World) (token : String) (key : Nat)
    (p : Payload) :
    decode_or_invalid w token key = .ok p ↔ decode_token w token key = .ok p := by
  unfold decode_or_invalid
  cases decode_token w token key <;> simp

/-- On a cache hit, `get_token_payload` decodes at once: one lookup, no
forced refresh. -/
theorem get_token_payload_hit (w : World) (token kid : String) (key : Nat)
    (h1 : get_key w kid false = some key) :
    get_token_payload w token kid false =
      (decode_or_invalid w token key,
       [.getPubkey kid false, .jwtDecodeCall key]) := by
  unfold get_token_payload
  rw [h1]

/-- On a cache miss followed by a hit after the single forced refresh,
`get_token_payload` decodes under the refreshed key. -/
theorem get_token_payload_refresh_hit (w : World) (token kid : String)
    (key : Nat) (h1 : get_key w kid false = none)
    (h2 : get_key w kid true = some key) :
    get_token_payload w token kid false =
      (decode_or_invalid w token key,
       [.getPubkey kid false, .getPubkey kid true, .jwtDecodeCall key]) := by
  unfold get_token_payload
  rw [h1, h2]

/-- When the key is absent even after the single forced refresh,
`get_token_payload` fails with `NoMatchingPublicKey(kid)` after exactly two
lookups. -/
theorem get_token_payload_miss (w : World) (token kid : String)
    (h1 : get_key w kid false = none) (h2 : get_key w kid true = none) :
    get_token_payload w token kid false =
      (.error (.oidc (.noMatchingPublicKey kid)),
       [.getPubkey kid false, .getPubkey kid true]) := by
  unfold get_token_payload
  rw [h1, h2]

/-- A successful `get_token_payload` resolved a key either directly or after
the single forced refresh, and decoded the token under that key. -/
theorem get_token_payload_ok (w : World) (token kid : String) (p : Payload)
    (t : List ExtCall)
    (h : get_token_payload w token kid false = (.ok p, t)) :
    ∃ key,
      (get_key w kid false = some key ∨
        (get_key w kid false = none ∧ get_key w kid true = some key)) ∧
      decode_token w token key = .ok p := by
  cases h1 : get_key w kid false with
  | some pubkey =>
    rw [get_token_payload_hit w token kid pubkey h1] at h
    simp only [Prod.mk.injEq] at h
    exact ⟨pubkey, Or.inl rfl, (decode_or_invalid_ok w token pubkey p).mp h.1⟩
  | none =>
    cases h2 : get_key w kid true with
    | some pubkey =>
      rw [get_token_payload_refresh_hit w token kid pubkey h1 h2] at h
      simp only [Prod.mk.injEq] at h
      exact ⟨pubkey, Or.inr ⟨rfl, rfl⟩,
        (decode_or_invalid_ok w token pubkey p).mp h.1⟩
    | none =>
      rw [get_token_payload_miss w token kid h1 h2] at h
      simp at h

/-! ## C1 -/

/-- C1: a subject identifier is handed to caller-visible logic only after the
full decode (signature verification against the key resolved for the header
kid) succeeded: whenever `username_from_token` returns a value, the key id
was extracted, a key was resolved for it (directly or after one refresh),
`decode_token` succeeded under that key, and the returned value is the
`sub` claim of the decoded payload.  On every path where decode raised, the
result is an error, never a subject. -/
theorem sub_only_after_decode (w : World) (token : String) (v : Option JVal)
    (h : (username_from_token w token).1 = .ok v) :
    ∃ kid key,
      (extract_keyid w token).1 = .ok kid ∧
      (get_key w kid false = some key ∨
        (get_key w kid false = none ∧ get_key w kid true = some key)) ∧
      ∃ p, decode_token w token key = .ok p ∧ v = payloadGet p "sub" := by
  unfold username_from_token at h
  split at h
  · simp at h
  · rename_i kid t1 hE
    split at h
    · simp at h
    · rename_i payload t2 hG
      split at h
      · simp at h
      · rename_i hv
        simp only at h
        obtain ⟨key, hkey, hdec⟩ :=
          get_token_payload_ok w token kid payload t2 hG
        refine ⟨kid, key, ?_, hkey, payload, hdec, ?_⟩
        · rw [hE]
        · simpa using h.symm
      · simp at h

/-- World used to witness C1: a well-formed token whose signature verifies
under the cached key 7. -/
def wC1 : World :=
  { parse := fun _ =>
      { header := .ok { kid := some "kc1", alg := "RS256" },
        payload := [("sub", .jstr "alice")],
        sigKey := 7, claimsValid := true },
    getPubkey := fun kid _ => if kid = "kc1" then some 7 else none,
    settings := { uwTokenMaxAge := 0 },
    now := 0,
    authenticate := fun _ => none }

/-- Witness for C1 at a concrete world and token. -/
theorem sub_only_after_decode_witness :
    ∃ kid key,
      (extract_keyid wC1 "tok").1 = .ok kid ∧
      (get_key wC1 kid false = some key ∨
        (get_key wC1 kid false = none ∧ get_key wC1 kid true = some key)) ∧
      ∃ p, decode_token wC1 "tok" key = .ok p ∧
        (some (JVal.jstr "alice") : Option JVal) = payloadGet p "sub" :=
  sub_only_after_decode wC1 "tok" (some (.jstr "alice")) rfl

/-! ## C2 -/

/-- C2: the algorithm allowlist passed to `jwt.decode` is the fixed constant
`['RS256', 'RS384', 'RS512', 'ES256']`, never derived from the token's own
header; and a token whose header declares an algorithm outside that
allowlist fails with `InvalidTokenError` even when its header is otherwise
valid and a matching key exists in the cache. -/
theorem alg_allowlist_enforced :
    (SIGNING_ALGORITHMS = ["RS256", "RS384", "RS512", "ES256"] ∧
     ∀ (w : World) (token : String) (key : Nat),
       decode_token w token key =
         jwt_decode (w.parse token) key SIGNING_ALGORITHMS) ∧
    (∀ (w : World) (token kid : String) (key : Nat) (hdr : TokenHeader),
      get_unverified_header w token = .ok hdr →
      SIGNING_ALGORITHMS.contains hdr.alg = false →
      (extract_keyid w token).1 = .ok kid →
      get_key w kid false = some key →
      (username_from_token w token).1 =
        .error (.oidc (.invalidTokenError
          "The specified alg value is not allowed"))) := by
  refine ⟨⟨rfl, fun w token key => rfl⟩, ?_⟩
  intro w token kid key hdr hhdr halg hext hkey
  have hE : extract_keyid w token = (.ok kid, [ExtCall.headerCall token]) := by
    calc extract_keyid w token
        = ((extract_keyid w token).1, (extract_keyid w token).2) := rfl
      _ = (.ok kid, [ExtCall.headerCall token]) := by
          rw [hext, extract_keyid_snd]
  have hdec : decode_or_invalid w token key =
      .error (.oidc (.invalidTokenError
        "The specified alg value is not allowed")) := by
    unfold get_unverified_header at hhdr
    unfold decode_or_invalid decode_token jwt_decode
    rw [hhdr]
    have hmem : ¬ hdr.alg ∈ SIGNING_ALGORITHMS := by simpa using halg
    simp [hmem]
  unfold username_from_token
  rw [hE]
  simp only
  rw [get_token_payload_hit w token kid key hkey, hdec]

/-- World used to witness C2: the token header declares HS256 and a matching
key is cached, yet verification fails. -/
def wC2 : World :=
  { parse := fun _ =>
      { header := .ok { kid := some "kc2", alg := "HS256" },
        payload := [("sub", .jstr "mallory")],
        sigKey := 5, claimsValid := true },
    getPubkey := fun kid _ => if kid = "kc2" then some 5 else none,
    settings := { uwTokenMaxAge := 0 },
    now := 0,
    authenticate := fun _ => none }

/-- Witness for C2 at a concrete world and token. -/
theorem alg_allowlist_enforced_witness :
    (username_from_token wC2 "tok").1 =
      .error (.oidc (.invalidTokenError
        "The specified alg value is not allowed")) :=
  alg_allowlist_enforced.2 wC2 "tok" "kc2" 5
    { kid := some "kc2", alg := "HS256" } rfl (by decide) rfl rfl

/-! ## C3 -/

/-- A successful key-id extraction determines the whole result pair. -/
theorem extract_keyid_pair (w : World) (token kid : String)
    (h : (extract_keyid w token).1 = .ok kid) :
    extract_keyid w token = (.ok kid, [ExtCall.headerCall token]) := by
  calc extract_keyid w token
      = ((extract_keyid w token).1, (extract_keyid w token).2) := rfl
    _ = (.ok kid, [ExtCall.headerCall token]) := by
        rw [h, extract_keyid_snd]

/-- C3: with `UW_TOKEN_MAX_AGE = 0` the freshness check passes regardless of
`auth_time`; with a positive maximum age it passes exactly when an
`auth_time` claim with an integer value at least `now - maxAge` is present
(leeway-free), a missing `auth_time` fails, a present integer `auth_time`
is compared exactly against `now - maxAge`, and a failing check makes
`username_from_token` raise `InvalidTokenError("AuthTimedOut")`. -/
theorem freshness_policy :
    (∀ (s : Settings) (now : Int) (p : Payload),
      s.uwTokenMaxAge = 0 → valid_auth_time s now p = .ok true) ∧
    (∀ (s : Settings) (now : Int) (p : Payload),
      0 < s.uwTokenMaxAge →
      (valid_auth_time s now p = .ok true ↔
        ∃ v n, payloadGet p "auth_time" = some v ∧ pyInt v = .ok n ∧
          now - s.uwTokenMaxAge ≤ n)) ∧
    (∀ (s : Settings) (now : Int) (p : Payload),
      0 < s.uwTokenMaxAge → payloadGet p "auth_time" = none →
      valid_auth_time s now p = .ok false) ∧
    (∀ (s : Settings) (now : Int) (p : Payload) (n : Int),
      0 < s.uwTokenMaxAge → payloadGet p "auth_time" = some (.jint n) →
      valid_auth_time s now p = .ok (decide (now - s.uwTokenMaxAge ≤ n))) ∧
    (∀ (w : World) (token kid : String) (p : Payload),
      (extract_keyid w token).1 = .ok kid →
      (get_token_payload w token kid false).1 = .ok p →
      valid_auth_time w.settings w.now p = .ok false →
      (username_from_token w token).1 =
        .error (.oidc (.invalidTokenError "AuthTimedOut"))) := by
  refine ⟨?_, ?_, ?_, ?_, ?_⟩
  · intro s now p h
    simp [valid_auth_time, h]
  · intro s now p hpos
    have hne : s.uwTokenMaxAge ≠ 0 := hpos.ne'
    cases hv : payloadGet p "auth_time" with
    | none => simp [valid_auth_time, hne, hv]
    | some v =>
      cases hi : pyInt v with
      | error e => simp [valid_auth_time, hne, hv, hi]
      | ok n =>
        simp only [valid_auth_time, hne, if_false, hv, hi]
        constructor
        · intro h
          refine ⟨v, n, rfl, hi, ?_⟩
          simpa using h
        · rintro ⟨v2, n2, hv2, hn2, hle⟩
          obtain rfl : v2 = v := by simpa using hv2.symm
          obtain rfl : n2 = n := by
            rw [hi] at hn2
            simpa using hn2.symm
          simp [hle]
  · intro s now p hpos hv
    simp [valid_auth_time, hpos.ne', hv]
  · intro s now p n hpos hv
    simp [valid_auth_time, hpos.ne', hv, pyInt]
  · intro w token kid p hext hget hv
    have hE := extract_keyid_pair w token kid hext
    have hG : get_token_payload w token kid false =
        (.ok p, (get_token_payload w token kid false).2) := by
      calc get_token_payload w token kid false
          = ((get_token_payload w token kid false).1,
             (get_token_payload w token kid false).2) := rfl
        _ = _ := by rw [hget]
    unfold username_from_token
    rw [hE]
    simp only
    rw [hG]
    simp only
    rw [hv]

/-- World used to witness the AuthTimedOut part of C3: a validly signed
token whose `auth_time` is far older than the configured maximum age. -/
def wC3 : World :=
  { parse := fun _ =>
      { header := .ok { kid := some "kc3", alg := "RS256" },
        payload := [("sub", .jstr "bob"), ("auth_time", .jint 1)],
        sigKey := 3, claimsValid := true },
    getPubkey := fun kid _ => if kid = "kc3" then some 3 else none,
    settings := { uwTokenMaxAge := 300 },
    now := 1000,
    authenticate := fun _ => none }

/-- Witness for C3: `maxAge = 300` passes `auth_time = now - 299`, fails
`auth_time = now - 301`, fails a missing `auth_time`, `maxAge = 0` passes
with no `auth_time`, and the failing check surfaces as
`InvalidTokenError("AuthTimedOut")`. -/
theorem freshness_policy_witness :
    valid_auth_time { uwTokenMaxAge := 300 } 1000
      [("auth_time", .jint 701)] = .ok true ∧
    valid_auth_time { uwTokenMaxAge := 300 } 1000
      [("auth_time", .jint 699)] = .ok false ∧
    valid_auth_time { uwTokenMaxAge := 300 } 1000 [] = .ok false ∧
    valid_auth_time { uwTokenMaxAge := 0 } 1000 [] = .ok true ∧
    (username_from_token wC3 "tok").1 =
      .error (.oidc (.invalidTokenError "AuthTimedOut")) :=
  ⟨freshness_policy.2.2.2.1 { uwTokenMaxAge := 300 } 1000
      [("auth_time", .jint 701)] 701 (by decide) rfl,
   freshness_policy.2.2.2.1 { uwTokenMaxAge := 300 } 1000
      [("auth_time", .jint 699)] 699 (by decide) rfl,
   freshness_policy.2.2.1 { uwTokenMaxAge := 300 } 1000 [] (by decide) rfl,
   freshness_policy.1 { uwTokenMaxAge := 0 } 1000 [] rfl,
   freshness_policy.2.2.2.2 wC3 "tok" "kc3"
      [("sub", .jstr "bob"), ("auth_time", .jint 1)] rfl rfl rfl⟩

/-! ## C4 -/

/-- C4: key resolution performs one unforced lookup; only on a miss does it
perform exactly one further forced lookup; only when that also misses does
it fail with `NoMatchingPublicKey(kid)`; and a key absent from the cache
but present after the forced refresh is used to decode, so a token
verifying under it succeeds. -/
theorem key_retry_once : ∀ (w : World) (token kid : String),
    (∀ key, get_key w kid false = some key →
      get_token_payload w token kid false =
        (decode_or_invalid w token key,
         [.getPubkey kid false, .jwtDecodeCall key])) ∧
    (get_key w kid false = none → get_key w kid true = none →
      get_token_payload w token kid false =
        (.error (.oidc (.noMatchingPublicKey kid)),
         [.getPubkey kid false, .getPubkey kid true])) ∧
    (∀ key, get_key w kid false = none → get_key w kid true = some key →
      get_token_payload w token kid false =
        (decode_or_invalid w token key,
         [.getPubkey kid false, .getPubkey kid true,
          .jwtDecodeCall key])) ∧
    (∀ key p, get_key w kid false = none → get_key w kid true = some key →
      decode_token w token key = .ok p →
      (get_token_payload w token kid false).1 = .ok p) := by
  intro w token kid
  refine ⟨fun key h1 => get_token_payload_hit w token kid key h1,
          fun h1 h2 => get_token_payload_miss w token kid h1 h2,
          fun key h1 h2 => get_token_payload_refresh_hit w token kid key h1 h2,
          fun key p h1 h2 h3 => ?_⟩
  rw [get_token_payload_refresh_hit w token kid key h1 h2]
  exact (decode_or_invalid_ok w token key p).mpr h3

/-- World used to witness C4: the key for kid kc4 only appears when the
lookup forces a refresh, and the token verifies under it. -/
def wC4 : World :=
  { parse := fun _ =>
      { header := .ok { kid := some "kc4", alg := "RS256" },
        payload := [("sub", .jstr "carol")],
        sigKey := 9, claimsValid := true },
    getPubkey := fun kid force =>
      if force && (kid == "kc4") then some 9 else none,
    settings := { uwTokenMaxAge := 0 },
    now := 0,
    authenticate := fun _ => none }

/-- Witness for C4: a stale cache miss followed by a forced-refresh hit
makes exactly the two lookups and then verifies successfully. -/
theorem key_retry_once_witness :
    get_token_payload wC4 "tok" "kc4" false =
      (decode_or_invalid wC4 "tok" 9,
       [.getPubkey "kc4" false, .getPubkey "kc4" true, .jwtDecodeCall 9]) ∧
    (get_token_payload wC4 "tok" "kc4" false).1 =
      .ok [("sub", .jstr "carol")] :=
  ⟨(key_retry_once wC4 "tok" "kc4").2.2.1 9 rfl rfl,
   (key_retry_once wC4 "tok" "kc4").2.2.2 9 [("sub", .jstr "carol")]
     rfl rfl rfl⟩

/-! ## C5 -/

/-- C5: a structurally malformed token, and a token whose unverified header
lacks a `kid` or carries an empty one, fail with `InvalidTokenHeader`, and
the trace of external calls contains no key-cache lookup at all. -/
theorem header_fail_before_lookup : ∀ (w : World) (token : String),
    (∀ m, get_unverified_header w token = .error m →
      username_from_token w token =
        (.error (.oidc (.invalidTokenHeader m)), [.headerCall token]) ∧
      keyLookups (username_from_token w token).2 = []) ∧
    (∀ hdr, get_unverified_header w token = .ok hdr →
      (hdr.kid = none ∨ hdr.kid = some "") →
      username_from_token w token =
        (.error (.oidc (.invalidTokenHeader "")), [.headerCall token]) ∧
      keyLookups (username_from_token w token).2 = []) := by
  intro w token
  constructor
  · intro m hm
    have h1 : extract_keyid w token =
        (.error (.oidc (.invalidTokenHeader m)), [ExtCall.headerCall token]) := by
      unfold extract_keyid
      rw [hm]
    have hU : username_from_token w token =
        (.error (.oidc (.invalidTokenHeader m)), [ExtCall.headerCall token]) := by
      unfold username_from_token
      rw [h1]
    exact ⟨hU, by rw [hU]; rfl⟩
  · intro hdr hm hkid
    obtain ⟨kidOpt, alg⟩ := hdr
    have h1 : extract_keyid w token =
        (.error (.oidc (.invalidTokenHeader "")), [ExtCall.headerCall token]) := by
      unfold extract_keyid
      rw [hm]
      rcases hkid with h | h
      · have h2 : kidOpt = none := h
        subst h2
        rfl
      · have h2 : kidOpt = some "" := h
        subst h2
        rfl
    have hU : username_from_token w token =
        (.error (.oidc (.invalidTokenHeader "")), [ExtCall.headerCall token]) := by
      unfold username_from_token
      rw [h1]
    exact ⟨hU, by rw [hU]; rfl⟩

/-- World used to witness C5 on a malformed token. -/
def wC5a : World :=
  { parse := fun _ =>
      { header := .error "Not enough segments", payload := [],
        sigKey := 0, claimsValid := false },
    getPubkey := fun _ _ => some 1,
    settings := { uwTokenMaxAge := 0 },
    now := 0,
    authenticate := fun _ => none }

/-- World used to witness C5 on a header with no kid. -/
def wC5b : World :=
  { parse := fun _ =>
      { header := .ok { kid := none, alg := "RS256" }, payload := [],
        sigKey := 0, claimsValid := false },
    getPubkey := fun _ _ => some 1,
    settings := { uwTokenMaxAge := 0 },
    now := 0,
    authenticate := fun _ => none }

/-- Witness for C5: both a malformed token and a kid-less header fail with
`InvalidTokenHeader` and perform no key lookup, even though the cache would
have answered. -/
theorem header_fail_before_lookup_witness :
    (username_from_token wC5a "mal" =
      (.error (.oidc (.invalidTokenHeader "Not enough segments")),
       [.headerCall "mal"]) ∧
     keyLookups (username_from_token wC5a "mal").2 = []) ∧
    (username_from_token wC5b "tok" =
      (.error (.oidc (.invalidTokenHeader "")), [.headerCall "tok"]) ∧
     keyLookups (username_from_token wC5b "tok").2 = []) :=
  ⟨(header_fail_before_lookup wC5a "mal").1 "Not enough segments" rfl,
   (header_fail_before_lookup wC5b "tok").2
     { kid := none, alg := "RS256" } rfl (Or.inl rfl)⟩

/-! ## C6 -/

/-- Scanning a list whose head segment is free of the marker character
keeps exactly that segment. -/
theorem takeWhile_stops_at_marker (l r : List Char)
    (hl : ∀ c ∈ l, c ≠ '@') :
    (l ++ '@' :: r).takeWhile (fun c => c != '@') = l := by
  induction l with
  | nil => rfl
  | cons c cs ih =>
    have hc : (c != '@') = true := by
      simpa using hl c (List.mem_cons_self c cs)
    have ih2 := ih (fun d hd => hl d (List.mem_cons_of_mem c hd))
    simp [List.takeWhile, hc, ih2]

/-- Scanning a list whose head segment is free of the marker character
drops exactly that segment. -/
theorem dropWhile_stops_at_marker (l r : List Char)
    (hl : ∀ c ∈ l, c ≠ '@') :
    (l ++ '@' :: r).dropWhile (fun c => c != '@') = '@' :: r := by
  induction l with
  | nil => rfl
  | cons c cs ih =>
    have hc : (c != '@') = true := by
      simpa using hl c (List.mem_cons_self c cs)
    have ih2 := ih (fun d hd => hl d (List.mem_cons_of_mem c hd))
    simp [List.dropWhile, hc, ih2]

/-- Dropping while the marker is absent consumes the whole list. -/
theorem dropWhile_all_marker_free (l : List Char)
    (hl : ∀ c ∈ l, c ≠ '@') :
    l.dropWhile (fun c => c != '@') = [] := by
  induction l with
  | nil => rfl
  | cons c cs ih =>
    have hc : (c != '@') = true := by
      simpa using hl c (List.mem_cons_self c cs)
    have ih2 := ih (fun d hd => hl d (List.mem_cons_of_mem c hd))
    simp [List.dropWhile, hc, ih2]

/-- String append acts as list append on the underlying data. -/
theorem string_data_append (s t : String) :
    (s ++ t).data = s.data ++ t.data := rfl

/-- Counterexample to C6 as stated: the identifier `"@example.com"`
normalizes to the empty string, yet `clean_username` returns `.ok ""`
instead of raising `InvalidTokenError("Missing username")`, because the
emptiness check runs on the identifier before normalization. -/
theorem clean_username_empty_after_at :
    clean_username (some (.jstr "@example.com")) = .ok "" := rfl

/-- C6 (amended): `clean_username` raises `InvalidTokenError("Missing
username")` exactly when the incoming identifier is absent or empty
(checked before normalization); a nonempty identifier without `'@'` passes
through unchanged; an identifier `local ++ "@" ++ domain` is mapped to the
part before the first `'@'` — including to the empty string, which is
returned, not rejected. -/
theorem clean_username_spec :
    clean_username none =
      .error (.oidc (.invalidTokenError "Missing username")) ∧
    clean_username (some (.jstr "")) =
      .error (.oidc (.invalidTokenError "Missing username")) ∧
    (∀ u : String, u ≠ "" → (∀ c ∈ u.data, c ≠ '@') →
      clean_username (some (.jstr u)) = .ok u) ∧
    (∀ lp dom : String, (∀ c ∈ lp.data, c ≠ '@') →
      clean_username (some (.jstr (lp ++ "@" ++ dom))) = .ok lp) := by
  refine ⟨rfl, rfl, ?_, ?_⟩
  · intro u hu hall
    have hlen : u.length ≠ 0 := by
      intro h
      apply hu
      cases u with
      | mk d =>
        have hd : d = [] := by simpa [String.length] using h
        rw [hd]
    simp only [clean_username]
    rw [if_neg hlen, dropWhile_all_marker_free u.data hall]
  · intro lp dom hall
    have hdata : (lp ++ "@" ++ dom).data = lp.data ++ '@' :: dom.data := by
      rw [string_data_append, string_data_append]
      simp
    have hlen : (lp ++ "@" ++ dom).length ≠ 0 := by
      intro h
      have h2 : ((lp ++ "@" ++ dom).data).length = 0 := h
      rw [hdata] at h2
      simp at h2
    simp only [clean_username]
    rw [if_neg hlen, hdata, dropWhile_stops_at_marker lp.data dom.data hall,
        takeWhile_stops_at_marker lp.data dom.data hall]

/-- Witness for the amended C6: `"bob"` passes through and
`"alice@example.com"` maps to `"alice"`. -/
theorem clean_username_spec_witness :
    clean_username (some (.jstr "bob")) = .ok "bob" ∧
    clean_username (some (.jstr "alice@example.com")) = .ok "alice" :=
  ⟨clean_username_spec.2.2.1 "bob" (by decide) (by decide),
   clean_username_spec.2.2.2 "alice" "example.com" (by decide)⟩

/-! ## C7 -/

/-- World exhibiting the C7 divergence: a validly signed token whose
`auth_time` claim is the non-numeric string `"unknown"`, with a positive
configured maximum age. -/
def wC7 : World :=
  { parse := fun _ =>
      { header := .ok { kid := some "kc7", alg := "RS256" },
        payload := [("sub", .jstr "alice"), ("auth_time", .jstr "unknown")],
        sigKey := 7, claimsValid := true },
    getPubkey := fun kid _ => if kid = "kc7" then some 7 else none,
    settings := { uwTokenMaxAge := 300 },
    now := 1000000,
    authenticate := fun _ => some 1 }

/-- Request carrying that token. -/
def reqC7 : Request :=
  { httpAuthorization := some "Bearer t", user := none, session := [] }

/-- C7 fails on the code: `valid_auth_time` catches only `KeyError`, so the
`ValueError` raised by `int("unknown")` escapes `username_from_token`, is
not an `InvalidTokenError`, and propagates out of `process_view` unhandled
instead of becoming a 401 response. -/
theorem process_view_unhandled_value_error :
    (process_view wC7 reqC7).outcome = .unhandled (.valueError "unknown") :=
  rfl

/-! ## C8 -/

/-- A positive `isPrefixOf` test exhibits the list as the pattern followed
by a remainder. -/
theorem isPrefixOf_exists_append (old l : List Char)
    (h : old.isPrefixOf l = true) : ∃ t, l = old ++ t := by
  induction old generalizing l with
  | nil => exact ⟨l, rfl⟩
  | cons a as ih =>
    cases l with
    | nil => simp [List.isPrefixOf] at h
    | cons b bs =>
      simp only [List.isPrefixOf, Bool.and_eq_true, beq_iff_eq] at h
      obtain ⟨rfl, h2⟩ := h
      obtain ⟨t, rfl⟩ := ih bs h2
      exact ⟨t, rfl⟩

/-- A list in which the pattern does not occur as an infix is returned
unchanged by the single-replacement scan. -/
theorem replace_once_no_occurrence (old l : List Char)
    (h : ∀ l₁ l₂, l ≠ l₁ ++ old ++ l₂) :
    py_replace_once_list old l = l := by
  induction l with
  | nil => rfl
  | cons c rest ih =>
    have hp : old.isPrefixOf (c :: rest) = false := by
      cases hp : old.isPrefixOf (c :: rest) with
      | false => rfl
      | true =>
        obtain ⟨t, ht⟩ := isPrefixOf_exists_append old (c :: rest) hp
        exact absurd ht (by simpa using h [] t)
    have ih2 := ih (fun l₁ l₂ hh => h (c :: l₁) l₂ (by simp [hh]))
    simp [py_replace_once_list, hp, ih2]

/-- When the pattern sits at the head of the list, the single-replacement
scan removes exactly that head. -/
theorem replace_once_at_head (old l : List Char)
    (h : old.isPrefixOf l = true) :
    py_replace_once_list old l = l.drop old.length := by
  cases l with
  | nil =>
    cases old with
    | nil => rfl
    | cons a as => simp [List.isPrefixOf] at h
  | cons c rest => simp [py_replace_once_list, h]

/-- Appending cannot change a known head element. -/
theorem head_of_append (t l2 : List ExtCall) (x : ExtCall)
    (h : t.head? = some x) : (t ++ l2).head? = some x := by
  cases t with
  | nil => simp at h
  | cons a rest => simpa using h

/-- The first external call of every verification attempt is the
unverified-header read of the exact token string handed in. -/
theorem username_trace_head (w : World) (token : String) :
    (username_from_token w token).2.head? = some (.headerCall token) := by
  have hsnd := extract_keyid_snd w token
  unfold username_from_token
  split
  · rename_i e t hE
    rw [hE] at hsnd
    simp only at hsnd
    subst hsnd
    rfl
  · rename_i kid t hE
    rw [hE] at hsnd
    simp only at hsnd
    subst hsnd
    split
    · rfl
    · split <;> rfl

/-- C8 (amended): the adapter hands the verifier
`authorization.replace('Bearer ', '', 1)`: the first occurrence of the
substring `"Bearer "` is removed wherever it sits, and a header value in
which `"Bearer "` does not occur at all is passed unchanged; in particular
a leading `"Bearer "` is stripped. -/
theorem bearer_strip_behavior :
    (∀ (w : World) (req : Request) (authz : String),
      req.httpAuthorization = some authz → isAuthenticated req = false →
      (process_view w req).trace.head? =
        some (.headerCall (py_replace_once authz "Bearer "))) ∧
    (∀ s : String, (∀ l₁ l₂, s.data ≠ l₁ ++ "Bearer ".data ++ l₂) →
      py_replace_once s "Bearer " = s) ∧
    (∀ s : String, "Bearer ".data.isPrefixOf s.data = true →
      py_replace_once s "Bearer " = String.mk (s.data.drop 7)) := by
  refine ⟨?_, ?_, ?_⟩
  · intro w req authz hA hAuth
    obtain ⟨a?, u, sess⟩ := req
    have ha : a? = some authz := hA
    subst ha
    have hu : u = none := by
      cases hu : u with
      | none => rfl
      | some v =>
        rw [hu] at hAuth
        simp [isAuthenticated] at hAuth
    subst hu
    have hhead := username_trace_head w (py_replace_once authz "Bearer ")
    simp only [process_view]
    split
    · rename_i hT
      rw [hAuth] at hT
      exact absurd hT (by simp)
    · split
      · rename_i e t heq
        rw [heq] at hhead
        simpa using hhead
      · rename_i e t heq
        rw [heq] at hhead
        simpa using hhead
      · rename_i sub t heq
        rw [heq] at hhead
        simp at hhead
        split
        · simpa using hhead
        · simpa using hhead
        · rename_i username hclean
          split
          · exact head_of_append _ _ _ hhead
          · exact head_of_append _ _ _ hhead
  · intro s h
    unfold py_replace_once
    rw [replace_once_no_occurrence "Bearer ".data s.data h]
  · intro s h
    unfold py_replace_once
    rw [replace_once_at_head "Bearer ".data s.data h]
    rfl

/-- World for the C8 counterexample: header parsing fails immediately, so
the trace records exactly the token string the verifier received. -/
def wC8 : World :=
  { parse := fun _ =>
      { header := .error "mal", payload := [], sigKey := 0,
        claimsValid := false },
    getPubkey := fun _ _ => none,
    settings := { uwTokenMaxAge := 0 },
    now := 0,
    authenticate := fun _ => none }

/-- Request for the C8 counterexample: `"Bearer "` occurs mid-string, not
as a prefix. -/
def reqC8 : Request :=
  { httpAuthorization := some "xBearer y", user := none, session := [] }

/-- Counterexample to C8 as stated: in `"xBearer y"` the substring
`"Bearer "` does not occur as a prefix, yet the value is not passed to the
verifier unchanged: the verifier receives `"xy"`. -/
theorem bearer_midstring_counterexample :
    "Bearer ".data.isPrefixOf "xBearer y".data = false ∧
    py_replace_once "xBearer y" "Bearer " = "xy" ∧
    (process_view wC8 reqC8).trace = [.headerCall "xy"] :=
  ⟨rfl, rfl, rfl⟩

/-- Request for the C8 witness: a conventional bearer credential. -/
def reqC8w : Request :=
  { httpAuthorization := some "Bearer tok", user := none, session := [] }

/-- Witness for the amended C8: the verifier receives the header value with
the first `"Bearer "` removed; a value without any `"Bearer "` occurrence
is unchanged; a leading `"Bearer "` is stripped. -/
theorem bearer_strip_behavior_witness :
    (process_view wC8 reqC8w).trace.head? =
      some (.headerCall (py_replace_once "Bearer tok" "Bearer ")) ∧
    py_replace_once "plain" "Bearer " = "plain" ∧
    py_replace_once "Bearer tok" "Bearer " =
      String.mk ("Bearer tok".data.drop 7) :=
  ⟨bearer_strip_behavior.1 wC8 reqC8w "Bearer tok" rfl rfl,
   bearer_strip_behavior.2.1 "plain" (by
     intro l₁ l₂ h
     have hlen := congrArg List.length h
     simp [List.length_append] at hlen
     omega),
   bearer_strip_behavior.2.2 "Bearer tok" rfl⟩

/-! ## C9 -/

/-- C9: with no `Authorization` header, or with an already-authenticated
user, `process_view` makes no external call at all, leaves the session and
user untouched, and returns no response. -/
theorem short_circuit_no_work : ∀ (w : World) (req : Request),
    (req.httpAuthorization = none →
      process_view w req =
        { outcome := .proceed, user := req.user,
          session := req.session, trace := [] }) ∧
    (isAuthenticated req = true →
      process_view w req =
        { outcome := .proceed, user := req.user,
          session := req.session, trace := [] }) := by
  intro w req
  constructor
  · intro h
    unfold process_view
    rw [h]
  · intro h
    unfold process_view
    cases hA : req.httpAuthorization with
    | none => rfl
    | some authz => simp [h]

/-- World used to witness C9; its collaborators would answer, but are never
consulted. -/
def wC9 : World :=
  { parse := fun _ =>
      { header := .ok { kid := some "k", alg := "RS256" },
        payload := [("sub", .jstr "alice")], sigKey := 1,
        claimsValid := true },
    getPubkey := fun _ _ => some 1,
    settings := { uwTokenMaxAge := 0 },
    now := 0,
    authenticate := fun _ => some 8 }

/-- Request with no Authorization header and a pre-existing session. -/
def reqC9a : Request :=
  { httpAuthorization := none, user := some 3,
    session := [("k", "v")] }

/-- Request with a bearer header but an already-authenticated user. -/
def reqC9b : Request :=
  { httpAuthorization := some "Bearer x", user := some 3,
    session := [("k", "v")] }

/-- Witness for C9 on both short-circuit paths. -/
theorem short_circuit_no_work_witness :
    process_view wC9 reqC9a =
      { outcome := .proceed, user := some 3,
        session := [("k", "v")], trace := [] } ∧
    process_view wC9 reqC9b =
      { outcome := .proceed, user := some 3,
        session := [("k", "v")], trace := [] } :=
  ⟨(short_circuit_no_work wC9 reqC9a).1 rfl,
   (short_circuit_no_work wC9 reqC9b).2 rfl⟩

/-! ## C10 -/

/-- C10: when the token verifies and normalizes to a username but
`auth.authenticate` returns no user, `process_view` performs no login,
stores nothing in the session, returns `None` rather than a 401, and the
request proceeds with no authenticated user. -/
theorem authenticate_none_proceeds :
    ∀ (w : World) (req : Request) (authz username : String)
      (sub : Option JVal),
    req.httpAuthorization = some authz →
    isAuthenticated req = false →
    (username_from_token w (py_replace_once authz "Bearer ")).1 = .ok sub →
    clean_username sub = .ok username →
    w.authenticate username = none →
    process_view w req =
      { outcome := .proceed, user := req.user, session := req.session,
        trace := (username_from_token w (py_replace_once authz "Bearer ")).2
                   ++ [.authenticateCall username] } ∧
    (process_view w req).user = none := by
  intro w req authz username sub hA hAuth hU hC hAu
  have hru : req.user = none := by
    cases hu : req.user with
    | none => rfl
    | some v =>
      rw [isAuthenticated, hu] at hAuth
      simp at hAuth
  have hUU : username_from_token w (py_replace_once authz "Bearer ") =
      (.ok sub,
       (username_from_token w (py_replace_once authz "Bearer ")).2) := by
    calc username_from_token w (py_replace_once authz "Bearer ")
        = ((username_from_token w (py_replace_once authz "Bearer ")).1,
           (username_from_token w (py_replace_once authz "Bearer ")).2) := rfl
      _ = _ := by rw [hU]
  have hmain : process_view w req =
      { outcome := .proceed, user := req.user, session := req.session,
        trace := (username_from_token w (py_replace_once authz "Bearer ")).2
                   ++ [.authenticateCall username] } := by
    unfold process_view
    rw [hA]
    simp only [hAuth, Bool.false_eq_true, if_false]
    rw [hUU]
    simp only
    rw [hC]
    simp only
    rw [hAu]
  exact ⟨hmain, by rw [hmain, hru]⟩

/-- World used to witness C10: the token verifies and yields `"dave"`, but
the backend knows no such user. -/
def wC10 : World :=
  { parse := fun _ =>
      { header := .ok { kid := some "kca", alg := "RS256" },
        payload := [("sub", .jstr "dave")], sigKey := 4,
        claimsValid := true },
    getPubkey := fun kid _ => if kid = "kca" then some 4 else none,
    settings := { uwTokenMaxAge := 0 },
    now := 0,
    authenticate := fun _ => none }

/-- Request for the C10 witness. -/
def reqC10 : Request :=
  { httpAuthorization := some "Bearer t", user := none,
    session := [("s", "v")] }

/-- Witness for C10 at a concrete world and request. -/
theorem authenticate_none_proceeds_witness :
    process_view wC10 reqC10 =
      { outcome := .proceed, user := none, session := [("s", "v")],
        trace :=
          (username_from_token wC10 (py_replace_once "Bearer t" "Bearer ")).2
            ++ [.authenticateCall "dave"] } ∧
    (process_view wC10 reqC10).user = none :=
  authenticate_none_proceeds wC10 reqC10 "Bearer t" "dave"
    (some (.jstr "dave")) rfl rfl rfl rfl rfl

end UwOidc
